import Mathlib

/-!
Verification of the icracy AI-assembly debate server.

The definitions below are a shallow embedding of `src/server.js` (and of the
legacy implementation kept in `src/unnamed/part_000`).  JavaScript numbers are
modelled as rationals, JavaScript strings as Lean strings, nullable columns as
`Option`, and fallible steps as `Option`/`Except`.  Each theorem is stated
against these embedded definitions.
-/

namespace Icracy

/-! ## JavaScript string primitives

`String.prototype.trim`, the regex class `\s`, and `replace(/\s+/g, " ")`
all use the same whitespace set; we reproduce it from the ECMAScript
definition (WhiteSpace plus LineTerminator). -/

/-- The ECMAScript whitespace class used by `trim` and by the regex `\s`. -/
def jsWhitespace (c : Char) : Bool :=
  c.val = 0x09 || c.val = 0x0a || c.val = 0x0b || c.val = 0x0c || c.val = 0x0d ||
  c.val = 0x20 || c.val = 0xa0 || c.val = 0x1680 ||
  (0x2000 ≤ c.val && c.val ≤ 0x200a) ||
  c.val = 0x2028 || c.val = 0x2029 || c.val = 0x202f || c.val = 0x205f ||
  c.val = 0x3000 || c.val = 0xfeff

/-- `String.prototype.trim`. -/
def jsTrim (s : String) : String :=
  ⟨(((s.data.dropWhile jsWhitespace).reverse.dropWhile jsWhitespace).reverse)⟩

/-- ASCII lowercasing, the effect of `toLowerCase` on the strings this
application manipulates. -/
def jsToLower (s : String) : String :=
  ⟨s.data.map Char.toLower⟩

/-- `replace(/\s+/g, " ")` step: the flag records whether the previous
character belonged to a whitespace run already replaced. -/
def collapseWsAux : Bool → List Char → List Char
  | _, [] => []
  | prevWs, c :: cs =>
    if jsWhitespace c then
      if prevWs then collapseWsAux true cs
      else ' ' :: collapseWsAux true cs
    else c :: collapseWsAux false cs

/-- `replace(/\s+/g, " ")`: collapse every maximal whitespace run to one
space. -/
def collapseWs (l : List Char) : List Char :=
  collapseWsAux false l

/-- The `fallback` text of `parseDelegateOutput`:
`String(rawText || "").replace(/\s+/g, " ").trim()`. -/
def flattenText (s : String) : String :=
  jsTrim ⟨collapseWs s.data⟩

/-! ## `normalizeVote` (src/server.js lines 74-80) -/

/-- `normalized.startsWith("idi")`, as a structural test on the
characters. -/
def startsWithIdi (s : String) : Bool :=
  match s.data with
  | 'i' :: 'd' :: 'i' :: _ => true
  | _ => false

/-- `normalizeVote`: lowercase the trimmed text and test for the leading
`idi`; every input collapses to one of the two verdict strings. -/
def normalizeVote (vote : String) : String :=
  let normalized := jsToLower (jsTrim vote)
  if startsWithIdi normalized then "Idiotic" else "Intelligent"

/-! ## JavaScript values

`JSON.parse` results, modelled with rationals for JavaScript numbers.
Object fields are kept as an association list in which a later duplicate
key overwrites the earlier one, matching object assignment order. -/

inductive JsValue where
  | jnull
  | jbool (b : Bool)
  | jnum (q : ℚ)
  | jstr (s : String)
  | jarr (elems : List JsValue)
  | jobj (fields : List (String × JsValue))
deriving Repr

/-- JavaScript truthiness (`NaN` never occurs among parsed JSON values). -/
def jsTruthy : JsValue → Bool
  | .jnull => false
  | .jbool b => b
  | .jnum q => !(q == 0)
  | .jstr s => !(s == "")
  | .jarr _ => true
  | .jobj _ => true

/-- Property read `value.key`: defined fields of plain objects only;
`undefined` is `none`. -/
def jsGet (v : JsValue) (key : String) : Option JsValue :=
  match v with
  | .jobj fields => (fields.find? (fun p => p.1 == key)).map (fun p => p.2)
  | _ => none

/-- Decimal digit characters to a natural number. -/
def digitsVal (l : List Char) : ℕ :=
  l.foldl (fun a c => a * 10 + (c.toNat - 48)) 0

/-- Strip trailing `0` characters (used after the decimal point). -/
def stripTrailingZeros (s : String) : String :=
  ⟨(s.data.reverse.dropWhile (fun c => c == '0')).reverse⟩

/-- Left-pad with `0` to the given width. -/
def padZeros (s : String) (width : ℕ) : String :=
  ⟨List.replicate (width - s.data.length) '0' ++ s.data⟩

/-- Smallest exponent `k ≤ 40` with `d ∣ 10 ^ k`, if any. -/
def denPowTen (d : ℕ) : Option ℕ :=
  (List.range 41).find? (fun k => decide (d ∣ 10 ^ k))

/-- Decimal rendering of a nonnegative rational whose denominator divides a
power of ten — the only numbers JSON literals produce.  (JavaScript's
shortest-roundtrip float printing and its exponent forms for extreme
magnitudes are outside the modelled range.) -/
def qToStringNonneg (q : ℚ) : String :=
  match denPowTen q.den with
  | some k =>
    let scaled := q.num.natAbs * 10 ^ k / q.den
    let ip := scaled / 10 ^ k
    let fp := scaled % 10 ^ k
    if fp = 0 then toString ip
    else toString ip ++ "." ++ stripTrailingZeros (padZeros (toString fp) k)
  | none => toString q.num.natAbs ++ "/" ++ toString q.den

/-- `String(number)` on the modelled range. -/
def qToString (q : ℚ) : String :=
  if q < 0 then "-" ++ qToStringNonneg (-q) else qToStringNonneg q

/-- `String(value)` / `toString` coercion: `null` elements of an array
stringify to the empty string. -/
def jsToString : JsValue → String
  | .jnull => "null"
  | .jbool true => "true"
  | .jbool false => "false"
  | .jnum q => qToString q
  | .jstr s => s
  | .jarr [] => ""
  | .jarr [.jnull] => ""
  | .jarr [v] => jsToString v
  | .jarr (.jnull :: v :: rest) => "," ++ jsToString (.jarr (v :: rest))
  | .jarr (u :: v :: rest) => jsToString u ++ "," ++ jsToString (.jarr (v :: rest))
  | .jobj _ => "[object Object]"

/-! ### `Number(string)`

The string-to-number coercion used by `Number(parsed.confidence)`.
Decimal literals with optional sign, fraction and exponent are modelled
exactly; `NaN` is `none`.  The `Infinity`, hex/octal/binary forms are
outside the modelled range and map to `none`. -/

/-- Parse `Digits ('.' Digits?)? | '.' Digits` with an optional exponent. -/
def parseDecimalBody (cs : List Char) : Option ℚ :=
  let intDigits := cs.takeWhile Char.isDigit
  let rest1 := cs.drop intDigits.length
  let withExp : ℚ → List Char → Option ℚ := fun m cs2 =>
    match cs2 with
    | [] => some m
    | c :: rest =>
      if c = 'e' ∨ c = 'E' then
        let (eneg, rest2) : Bool × List Char :=
          match rest with
          | c2 :: r2 => if c2 = '-' then (true, r2) else if c2 = '+' then (false, r2) else (false, rest)
          | [] => (false, rest)
        let eds := rest2.takeWhile Char.isDigit
        if eds = [] ∨ rest2.drop eds.length ≠ [] then none
        else some (if eneg then m / 10 ^ digitsVal eds else m * 10 ^ digitsVal eds)
      else none
  if intDigits = [] then
    match rest1 with
    | '.' :: rest2 =>
      let frac := rest2.takeWhile Char.isDigit
      if frac = [] then none
      else withExp ((digitsVal frac : ℚ) / 10 ^ frac.length) (rest2.drop frac.length)
    | _ => none
  else
    match rest1 with
    | '.' :: rest2 =>
      let frac := rest2.takeWhile Char.isDigit
      withExp ((digitsVal intDigits : ℚ) + (digitsVal frac : ℚ) / 10 ^ frac.length)
        (rest2.drop frac.length)
    | _ => withExp (digitsVal intDigits : ℚ) rest1

/-- `Number(string)`. -/
def jsStringToNumber (s : String) : Option ℚ :=
  let t := (jsTrim s).data
  if t = [] then some 0
  else
    match t with
    | '-' :: rest => (parseDecimalBody rest).map (fun q => -q)
    | '+' :: rest => parseDecimalBody rest
    | _ => parseDecimalBody t

/-- `Number(value)`: `ToPrimitive` stringifies arrays; plain objects give
`NaN`. -/
def jsToNumber : JsValue → Option ℚ
  | .jnull => some 0
  | .jbool b => some (if b then 1 else 0)
  | .jnum q => some q
  | .jstr s => jsStringToNumber s
  | .jarr l => jsStringToNumber (jsToString (.jarr l))
  | .jobj _ => none

/-! ### Strict JSON parsing (`JSON.parse`) -/

/-- JSON insignificant whitespace. -/
def jsonWs (c : Char) : Bool :=
  c == ' ' || c == '\t' || c == '\n' || c == '\r'

def skipJsonWs (cs : List Char) : List Char :=
  cs.dropWhile jsonWs

/-- Hexadecimal digit value. -/
def hexVal (c : Char) : Option ℕ :=
  if '0' ≤ c ∧ c ≤ '9' then some (c.toNat - 48)
  else if 'a' ≤ c ∧ c ≤ 'f' then some (c.toNat - 87)
  else if 'A' ≤ c ∧ c ≤ 'F' then some (c.toNat - 55)
  else none

/-- Later duplicate keys overwrite earlier ones. -/
def objInsert (fields : List (String × JsValue)) (key : String) (v : JsValue) :
    List (String × JsValue) :=
  if fields.any (fun p => p.1 == key) then
    fields.map (fun p => if p.1 == key then (key, v) else p)
  else fields ++ [(key, v)]

/-- The value of a simple (single-character) JSON string escape. -/
def simpleEscape (e : Char) : Option Char :=
  if e = '"' then some '"'
  else if e = '\\' then some '\\'
  else if e = '/' then some '/'
  else if e = 'b' then some (Char.ofNat 8)
  else if e = 'f' then some (Char.ofNat 12)
  else if e = 'n' then some '\n'
  else if e = 'r' then some '\r'
  else if e = 't' then some '\t'
  else none

/-- A trailing low-surrogate escape `\uXXXX`, if the input starts with
one: its code unit and the rest of the input. -/
def lowSurrogateEscape : List Char → Option (ℕ × List Char)
  | '\\' :: 'u' :: a2 :: b2 :: c3 :: d2 :: rest4 =>
    (match hexVal a2, hexVal b2, hexVal c3, hexVal d2 with
     | some ha2, some hb2, some hc2, some hd2 =>
       let lo := ((ha2 * 16 + hb2) * 16 + hc2) * 16 + hd2
       if 0xdc00 ≤ lo ∧ lo ≤ 0xdfff then some (lo, rest4) else none
     | _, _, _, _ => none)
  | _ => none

/-- Body of a JSON string after the opening quote, by fuel (one unit per
consumed escape or character suffices): the decoded characters and the
input past the closing quote.  Surrogate pairs in `\uXXXX` escapes are
combined; a lone surrogate falls back to `Char.ofNat`'s default; an
unescaped control character is rejected, as `JSON.parse` does. -/
def parseStringBody : ℕ → List Char → Option (List Char × List Char)
  | 0, _ => none
  | _ + 1, [] => none
  | _ + 1, '"' :: rest => some ([], rest)
  | fuel + 1, '\\' :: 'u' :: a :: b :: c2 :: d :: rest3 =>
    (match hexVal a, hexVal b, hexVal c2, hexVal d with
     | some ha, some hb, some hc, some hd =>
       let cp := ((ha * 16 + hb) * 16 + hc) * 16 + hd
       if 0xd800 ≤ cp ∧ cp ≤ 0xdbff then
         match lowSurrogateEscape rest3 with
         | some p =>
           (parseStringBody fuel p.2).map (fun q =>
             (Char.ofNat (0x10000 + (cp - 0xd800) * 0x400 + (p.1 - 0xdc00)) :: q.1, q.2))
         | none => (parseStringBody fuel rest3).map (fun q => (Char.ofNat cp :: q.1, q.2))
       else (parseStringBody fuel rest3).map (fun q => (Char.ofNat cp :: q.1, q.2))
     | _, _, _, _ => none)
  | fuel + 1, '\\' :: e :: rest2 =>
    (match simpleEscape e with
     | some ch => (parseStringBody fuel rest2).map (fun p => (ch :: p.1, p.2))
     | none => none)
  | _ + 1, ['\\'] => none
  | fuel + 1, c :: rest =>
    if c.toNat < 0x20 then none
    else (parseStringBody fuel rest).map (fun p => (c :: p.1, p.2))

/-- Strict JSON number: `-? (0 | [1-9][0-9]*) ('.' [0-9]+)? ([eE][+-]?[0-9]+)?`. -/
def parseJsonNumber (cs : List Char) : Option (ℚ × List Char) :=
  let (neg, cs1) : Bool × List Char :=
    match cs with
    | '-' :: rest => (true, rest)
    | _ => (false, cs)
  let intPart : Option (ℚ × List Char) :=
    match cs1 with
    | '0' :: rest => some (0, rest)
    | c :: _ =>
      if c.isDigit ∧ c ≠ '0' then
        let ds := cs1.takeWhile Char.isDigit
        some ((digitsVal ds : ℚ), cs1.drop ds.length)
      else none
    | [] => none
  match intPart with
  | none => none
  | some (ip, rest1) =>
    let withFrac : Option (ℚ × List Char) :=
      match rest1 with
      | '.' :: rest2 =>
        let frac := rest2.takeWhile Char.isDigit
        if frac = [] then none
        else some (ip + (digitsVal frac : ℚ) / 10 ^ frac.length, rest2.drop frac.length)
      | _ => some (ip, rest1)
    match withFrac with
    | none => none
    | some (m, rest2) =>
      let withExp : Option (ℚ × List Char) :=
        match rest2 with
        | c :: rest3 =>
          if c = 'e' ∨ c = 'E' then
            let (eneg, rest4) : Bool × List Char :=
              match rest3 with
              | c2 :: r2 =>
                if c2 = '-' then (true, r2) else if c2 = '+' then (false, r2) else (false, rest3)
              | [] => (false, rest3)
            let eds := rest4.takeWhile Char.isDigit
            if eds = [] then none
            else some (if eneg then m / 10 ^ digitsVal eds else m * 10 ^ digitsVal eds,
                       rest4.drop eds.length)
          else some (m, rest2)
        | [] => some (m, rest2)
      (withExp).map (fun p => (if neg then -p.1 else p.1, p.2))

mutual

/-- One JSON value, by fuel. -/
def parseJsonValue : ℕ → List Char → Option (JsValue × List Char)
  | 0, _ => none
  | fuel + 1, cs =>
    match skipJsonWs cs with
    | [] => none
    | c :: rest =>
      if c = '\x7b' then
        match skipJsonWs rest with
        | '\x7d' :: rest2 => some (.jobj [], rest2)
        | _ => parseJsonMembers fuel rest []
      else if c = '[' then
        match skipJsonWs rest with
        | ']' :: rest2 => some (.jarr [], rest2)
        | _ => parseJsonElements fuel rest []
      else if c = '"' then
        (parseStringBody (rest.length + 1) rest).map (fun p => (.jstr ⟨p.1⟩, p.2))
      else if c = 't' then
        match rest with
        | 'r' :: 'u' :: 'e' :: rest2 => some (.jbool true, rest2)
        | _ => none
      else if c = 'f' then
        match rest with
        | 'a' :: 'l' :: 's' :: 'e' :: rest2 => some (.jbool false, rest2)
        | _ => none
      else if c = 'n' then
        match rest with
        | 'u' :: 'l' :: 'l' :: rest2 => some (.jnull, rest2)
        | _ => none
      else if c = '-' ∨ c.isDigit then
        (parseJsonNumber (c :: rest)).map (fun p => (.jnum p.1, p.2))
      else none

/-- Members of an object after `{`, accumulating parsed fields. -/
def parseJsonMembers : ℕ → List Char → List (String × JsValue) →
    Option (JsValue × List Char)
  | 0, _, _ => none
  | fuel + 1, cs, acc =>
    match skipJsonWs cs with
    | '"' :: rest =>
      match parseStringBody (rest.length + 1) rest with
      | none => none
      | some (keyChars, rest2) =>
        match skipJsonWs rest2 with
        | ':' :: rest3 =>
          match parseJsonValue fuel rest3 with
          | none => none
          | some (v, rest4) =>
            let acc2 := objInsert acc ⟨keyChars⟩ v
            match skipJsonWs rest4 with
            | ',' :: rest5 => parseJsonMembers fuel rest5 acc2
            | '\x7d' :: rest5 => some (.jobj acc2, rest5)
            | _ => none
        | _ => none
    | _ => none

/-- Elements of an array after `[`, accumulating parsed values. -/
def parseJsonElements : ℕ → List Char → List JsValue → Option (JsValue × List Char)
  | 0, _, _ => none
  | fuel + 1, cs, acc =>
    match parseJsonValue fuel cs with
    | none => none
    | some (v, rest) =>
      match skipJsonWs rest with
      | ',' :: rest2 => parseJsonElements fuel rest2 (acc ++ [v])
      | ']' :: rest2 => some (.jarr (acc ++ [v]), rest2)
      | _ => none

end

/-- `JSON.parse`: one value, nothing but whitespace around it. -/
def jsonParse (s : String) : Option JsValue :=
  match parseJsonValue (2 * s.data.length + 4) s.data with
  | some (v, rest) => if skipJsonWs rest = [] then some v else none
  | none => none

/-- `maybeParseJsonObject` (src/server.js lines 109-131): strict parse
first, then the first-`{`-to-last-`}` substring. -/
def maybeParseJsonObject (text : String) : Option JsValue :=
  if text = "" then none
  else
    match jsonParse text with
    | some v => some v
    | none =>
      let idxStart := text.data.findIdx? (fun c => c == '\x7b')
      let idxEndRev := text.data.reverse.findIdx? (fun c => c == '\x7d')
      match idxStart, idxEndRev with
      | some start, some revIdx =>
        let stop := text.data.length - 1 - revIdx
        if start ≥ stop then none
        else jsonParse ⟨(text.data.drop start).take (stop + 1 - start)⟩
      | _, _ => none

/-! ## Response parser (src/server.js lines 133-155) -/

/-- `parsed && typeof parsed === "object"`: `null` is falsy, scalars have a
different `typeof`, arrays and objects pass. -/
def jsIsObjectLike : JsValue → Bool
  | .jobj _ => true
  | .jarr _ => true
  | _ => false

/-- Truthiness of a possibly-undefined value. -/
def jsTruthyOpt (o : Option JsValue) : Bool :=
  match o with
  | some v => jsTruthy v
  | none => false

/-- `a || b` on possibly-undefined values. -/
def jsOr (a b : Option JsValue) : Option JsValue :=
  if jsTruthyOpt a then a else b

/-- `String(x || "")`: the empty string whenever `x` is falsy or
undefined. -/
def jsStringOrEmpty (o : Option JsValue) : String :=
  match o with
  | some v => if jsTruthy v then jsToString v else ""
  | none => ""

/-- The value selected by a `||` chain ending in a truthy default. -/
def jsFirstTruthy (l : List (Option JsValue)) (dflt : JsValue) : JsValue :=
  match l with
  | [] => dflt
  | o :: rest =>
    match o with
    | some v => if jsTruthy v then v else jsFirstTruthy rest dflt
    | none => jsFirstTruthy rest dflt

/-- `Number(parsed.confidence) || 55`: 55 for an absent field, a
non-numeric value, or a zero. -/
def jsConfidenceNumber (o : Option JsValue) : ℚ :=
  match o with
  | none => 55
  | some v =>
    match jsToNumber v with
    | none => 55
    | some q => if q = 0 then 55 else q

/-- `clamp(value, min, max) = Math.max(min, Math.min(max, value))`
(src/server.js lines 48-50). -/
def clampQ (value lo hi : ℚ) : ℚ :=
  max lo (min hi value)

/-! ### The regex heuristics

`fallback.match(/\b(Intelligent|Idiotic)\b/i)` and
`fallback.match(/\b(\d{1,3})\s*%/)`, with first-match semantics. -/

/-- The regex word class `\w = [A-Za-z0-9_]`. -/
def isWordChar (c : Char) : Bool :=
  ('a' ≤ c && c ≤ 'z') || ('A' ≤ c && c ≤ 'Z') || ('0' ≤ c && c ≤ '9') || c == '_'

/-- Case-insensitive literal match: the matched original-case characters
and the rest. -/
def matchCaseInsensitive : List Char → List Char → Option (List Char × List Char)
  | [], cs => some ([], cs)
  | _ :: _, [] => none
  | p :: ps, c :: cs =>
    if c.toLower = p.toLower then
      (matchCaseInsensitive ps cs).map (fun q => (c :: q.1, q.2))
    else none

/-- `\b` after a token ending in a word character. -/
def boundaryAfter : List Char → Bool
  | [] => true
  | c :: _ => !(isWordChar c)

/-- Try `\b(Intelligent|Idiotic)\b` at one position, given whether the
previous character is a word character; the alternation tries
`Intelligent` first. -/
def voteTokenAt (prevIsWord : Bool) (cs : List Char) : Option String :=
  if prevIsWord then none
  else
    let tryIdiotic : Option String :=
      match matchCaseInsensitive "idiotic".data cs with
      | some (m, r) => if boundaryAfter r then some ⟨m⟩ else none
      | none => none
    match matchCaseInsensitive "intelligent".data cs with
    | some (m, r) => if boundaryAfter r then some ⟨m⟩ else tryIdiotic
    | none => tryIdiotic

/-- Scan for the first vote-token match. -/
def firstVoteMatchAux : Bool → List Char → Option String
  | _, [] => none
  | prevW, c :: rest =>
    match voteTokenAt prevW (c :: rest) with
    | some m => some m
    | none => firstVoteMatchAux (isWordChar c) rest

/-- First match of `/\b(Intelligent|Idiotic)\b/i`: the captured token. -/
def firstVoteMatch (s : String) : Option String :=
  firstVoteMatchAux false s.data

/-- Try `\b(\d{1,3})\s*%/` at one position.  A digit run longer than three
cannot match here under backtracking, since shortening the greedy `\d{1,3}`
leaves the next character a digit, which neither `\s*` nor `%` accepts. -/
def pctTokenAt (prevIsWord : Bool) (cs : List Char) : Option ℕ :=
  if prevIsWord then none
  else
    let run := cs.takeWhile Char.isDigit
    if run.length = 0 ∨ run.length > 3 then none
    else
      match (cs.drop run.length).dropWhile jsWhitespace with
      | '%' :: _ => some (digitsVal run)
      | _ => none

/-- Scan for the first percentage match. -/
def firstPctAux : Bool → List Char → Option ℕ
  | _, [] => none
  | prevW, c :: rest =>
    match pctTokenAt prevW (c :: rest) with
    | some n => some n
    | none => firstPctAux (isWordChar c) rest

/-- First match of `/\b(\d{1,3})\s*%/`: the captured digits' value. -/
def firstPct (s : String) : Option ℕ :=
  firstPctAux false s.data

/-- The normalized record `parseDelegateOutput` returns. -/
structure ParsedOutput where
  vote : String
  confidence : ℚ
  argument : String
  rebuttal : String
deriving DecidableEq, Repr

/-- The regex-heuristic branch of `parseDelegateOutput`
(lines 146-154). -/
def regexFallbackRecord (fallback : String) : ParsedOutput :=
  { vote := normalizeVote (match firstVoteMatch fallback with
      | some m => m
      | none => "Intelligent")
    confidence := clampQ (match firstPct fallback with
      | some n => (n : ℚ)
      | none => 55) 1 100
    argument := if fallback == "" then "No argument returned." else fallback
    rebuttal := "" }

/-- The JSON-object branch of `parseDelegateOutput` (lines 137-144). -/
def jsonBranchRecord (v : JsValue) (fallback : String) : ParsedOutput :=
  { vote := normalizeVote (jsStringOrEmpty (jsOr (jsGet v "vote") (jsGet v "verdict")))
    confidence := clampQ (jsConfidenceNumber (jsGet v "confidence")) 1 100
    argument := jsTrim (jsToString (jsFirstTruthy
      [jsGet v "argument", jsGet v "reasoning", some (.jstr fallback)]
      (.jstr "No argument returned.")))
    rebuttal := jsTrim (jsToString (jsFirstTruthy
      [jsGet v "rebuttal", jsGet v "counterpoint"] (.jstr ""))) }

/-- `parseDelegateOutput` from `src/server.js` lines 133-155. -/
def parseDelegateOutput (rawText : String) : ParsedOutput :=
  let fallback := flattenText rawText
  match maybeParseJsonObject rawText with
  | some parsed =>
    if jsIsObjectLike parsed then jsonBranchRecord parsed fallback
    else regexFallbackRecord fallback
  | none => regexFallbackRecord fallback

/-! ## Consensus engine (src/server.js lines 157-197)

A delegate-vote row as consumed by `computeConsensus`: `error`, `vote` and
`confidence` are nullable columns. -/

structure DelegateRow where
  modelId : String
  vote : Option String
  confidence : Option ℚ
  argument : Option String
  rebuttal : Option String
  error : Option String
  source : String
deriving DecidableEq, Repr

/-- JavaScript truthiness of the nullable `error` column: `null` and the
empty string are falsy. -/
def errTruthy (e : Option String) : Bool :=
  match e with
  | none => false
  | some s => !(s == "")

/-- A row is tallied when `if (row.error) continue` does not skip it. -/
def rowCounted (r : DelegateRow) : Bool :=
  !(errTruthy r.error)

/-- `row.vote === "Idiotic"` (strict equality, so a null vote is false). -/
def rowIsIdiotic (r : DelegateRow) : Bool :=
  r.vote == some "Idiotic"

/-- `w += row.confidence` coerces a null confidence to `0`. -/
def rowConf (r : DelegateRow) : ℚ :=
  r.confidence.getD 0

/-- One iteration of the tally loop of `computeConsensus`; the accumulator is
`(intelligentVotes, idioticVotes, intelligentWeight, idioticWeight)`. -/
def tallyStep (acc : ℕ × ℕ × ℚ × ℚ) (r : DelegateRow) : ℕ × ℕ × ℚ × ℚ :=
  if errTruthy r.error then acc
  else if rowIsIdiotic r then (acc.1, acc.2.1 + 1, acc.2.2.1, acc.2.2.2 + rowConf r)
  else (acc.1 + 1, acc.2.1, acc.2.2.1 + rowConf r, acc.2.2.2)

/-- The tally loop of `computeConsensus`. -/
def consensusTally (rows : List DelegateRow) : ℕ × ℕ × ℚ × ℚ :=
  rows.foldl tallyStep (0, 0, 0, 0)

/-- `Math.round`: round half toward positive infinity. -/
def jsRound (q : ℚ) : ℤ :=
  ⌊q + 1 / 2⌋

structure Consensus where
  verdict : String
  intelligentVotes : ℕ
  idioticVotes : ℕ
  totalVotes : ℕ
  intelligentPct : ℤ
  idioticPct : ℤ
deriving DecidableEq, Repr

/-- `computeConsensus` from `src/server.js` lines 157-197. -/
def computeConsensus (delegateRows : List DelegateRow) : Consensus :=
  let t := consensusTally delegateRows
  let intelligentVotes := t.1
  let idioticVotes := t.2.1
  let intelligentWeight := t.2.2.1
  let idioticWeight := t.2.2.2
  let totalVotes := intelligentVotes + idioticVotes
  let verdict :=
    if idioticVotes > intelligentVotes then "Idiotic"
    else if idioticVotes = intelligentVotes then
      (if idioticWeight > intelligentWeight then "Idiotic" else "Intelligent")
    else "Intelligent"
  let intelligentPct :=
    if totalVotes ≠ 0 then jsRound ((intelligentVotes : ℚ) / (totalVotes : ℚ) * 100)
    else 50
  { verdict := verdict
    intelligentVotes := intelligentVotes
    idioticVotes := idioticVotes
    totalVotes := totalVotes
    intelligentPct := intelligentPct
    idioticPct := 100 - intelligentPct }

/-- One iteration of the tally loop of the legacy `computeConsensus`
(`src/unnamed/part_000` lines 192-200): it runs over the pre-filtered
successful rows, so there is no error test in the body. -/
def tallyStepLegacy (acc : ℕ × ℕ × ℚ × ℚ) (r : DelegateRow) : ℕ × ℕ × ℚ × ℚ :=
  if rowIsIdiotic r then (acc.1, acc.2.1 + 1, acc.2.2.1, acc.2.2.2 + rowConf r)
  else (acc.1 + 1, acc.2.1, acc.2.2.1 + rowConf r, acc.2.2.2)

/-- `computeConsensus` from the legacy `src/unnamed/part_000` lines 184-221:
filter the successful rows first, then tally. -/
def computeConsensusLegacy (delegateResults : List DelegateRow) : Consensus :=
  let successful := delegateResults.filter (fun item => !(errTruthy item.error))
  let t := successful.foldl tallyStepLegacy (0, 0, 0, 0)
  let intelligentVotes := t.1
  let idioticVotes := t.2.1
  let intelligentWeight := t.2.2.1
  let idioticWeight := t.2.2.2
  let totalVotes := intelligentVotes + idioticVotes
  let verdict :=
    if idioticVotes > intelligentVotes then "Idiotic"
    else if idioticVotes = intelligentVotes then
      (if idioticWeight > intelligentWeight then "Idiotic" else "Intelligent")
    else "Intelligent"
  let intelligentPct :=
    if totalVotes ≠ 0 then jsRound ((intelligentVotes : ℚ) / (totalVotes : ℚ) * 100)
    else 50
  { verdict := verdict
    intelligentVotes := intelligentVotes
    idioticVotes := idioticVotes
    totalVotes := totalVotes
    intelligentPct := intelligentPct
    idioticPct := 100 - intelligentPct }

/-! ### Specification-side tallies

Independent definitions of the four accumulator values, used to state the
tie-break claim. -/

/-- Count of tallied rows on the Intelligent side. -/
def intelligentCount (rows : List DelegateRow) : ℕ :=
  (rows.filter (fun r => rowCounted r && !(rowIsIdiotic r))).length

/-- Count of tallied rows on the Idiotic side. -/
def idioticCount (rows : List DelegateRow) : ℕ :=
  (rows.filter (fun r => rowCounted r && rowIsIdiotic r)).length

/-- Summed confidence weight of the Intelligent side. -/
def intelligentWeight (rows : List DelegateRow) : ℚ :=
  ((rows.filter (fun r => rowCounted r && !(rowIsIdiotic r))).map rowConf).sum

/-- Summed confidence weight of the Idiotic side. -/
def idioticWeight (rows : List DelegateRow) : ℚ :=
  ((rows.filter (fun r => rowCounted r && rowIsIdiotic r)).map rowConf).sum

/-- The spec's one-one tie scenario: Intelligent at weight 80 versus
Idiotic at weight 60. -/
def demoTieRows : List DelegateRow :=
  [{ modelId := "a", vote := some "Intelligent", confidence := some 80,
     argument := some "pro", rebuttal := some "", error := none, source := "mock" },
   { modelId := "b", vote := some "Idiotic", confidence := some 60,
     argument := some "con", rebuttal := some "", error := none, source := "mock" }]

/-- A single successful Intelligent vote. -/
def demoSingleRow : List DelegateRow :=
  [{ modelId := "a", vote := some "Intelligent", confidence := some 80,
     argument := some "pro", rebuttal := some "", error := none, source := "mock" }]

/-! ## Debate orchestrator (src/server.js lines 928-1106)

`runDebateForResolution` dispatches one delegate call per identifier with
`Promise.allSettled`, so the join produces one settled outcome — fulfilled
or rejected — per dispatched call.  We embed the function from that join
onward: the settled outcomes are an input, and the debate record that the
final `UPDATE debates ... status = 'closed'` persists is the output. -/

/-- A fulfilled delegate call as returned by `runDelegateDebate`. -/
structure DelegateSuccess where
  vote : String
  confidence : ℚ
  argument : String
  rebuttal : String
  raw : String
  source : String
deriving DecidableEq, Repr

/-- The per-outcome row construction of the fan-in transaction
(lines 971-1054): a fulfilled outcome keeps vote/confidence and a null
error; a rejected outcome keeps only the stringified reason. -/
def buildDelegateRow (modelId : String) : Except String DelegateSuccess → DelegateRow
  | .ok row =>
    { modelId := modelId, vote := some row.vote, confidence := some row.confidence,
      argument := some row.argument, rebuttal := some row.rebuttal, error := none,
      source := if row.source == "" then "openrouter" else row.source }
  | .error errorMessage =>
    { modelId := modelId, vote := none, confidence := none,
      argument := none, rebuttal := none, error := some errorMessage,
      source := "openrouter" }

/-- `settled.forEach((result, index) => ...)` pairs each settled outcome
with the delegate id of the same index. -/
def buildDelegateRows (delegateIds : List String)
    (settled : List (Except String DelegateSuccess)) : List DelegateRow :=
  (settled.zip delegateIds).map (fun p => buildDelegateRow p.2 p.1)

/-- The finalized debate record written by lines 1060-1084. -/
structure DebateFinal where
  status : String
  consensus : Consensus
  rows : List DelegateRow
deriving DecidableEq, Repr

/-- `runDebateForResolution` from the fan-in join onward: persist one row
per settled outcome, compute consensus over the full row set, and close the
debate with the computed tallies. -/
def runDebateForResolution (delegateIds : List String)
    (settled : List (Except String DelegateSuccess)) : DebateFinal :=
  let delegateRows := buildDelegateRows delegateIds settled
  { status := "closed", consensus := computeConsensus delegateRows, rows := delegateRows }

/-! ## Cryptographic hashes

`createHash("sha256")` / `createHash("sha1")` over the UTF-8 bytes of
their input, implemented from FIPS 180-4 on naturals reduced mod `2^32`. -/

/-- UTF-8 encoding of one scalar value. -/
def utf8EncodeCharNat (c : Char) : List ℕ :=
  let n := c.toNat
  if n < 0x80 then [n]
  else if n < 0x800 then
    [0xc0 + n / 0x40, 0x80 + n % 0x40]
  else if n < 0x10000 then
    [0xe0 + n / 0x1000, 0x80 + n / 0x40 % 0x40, 0x80 + n % 0x40]
  else
    [0xf0 + n / 0x40000, 0x80 + n / 0x1000 % 0x40, 0x80 + n / 0x40 % 0x40, 0x80 + n % 0x40]

/-- UTF-8 bytes of a string (what `hash.update(string)` consumes). -/
def utf8Bytes (s : String) : List ℕ :=
  s.data.foldr (fun c acc => utf8EncodeCharNat c ++ acc) []

/-- Reduction to a 32-bit word. -/
def w32 (n : ℕ) : ℕ := n % 4294967296

/-- Right rotation of a 32-bit word. -/
def rotr32 (x n : ℕ) : ℕ := w32 (x / 2 ^ n + x % 2 ^ n * 2 ^ (32 - n))

/-- Left rotation of a 32-bit word (`n` in 1..31). -/
def rotl32 (x n : ℕ) : ℕ := rotr32 x (32 - n)

/-- Big-endian 64-bit length field. -/
def be64 (n : ℕ) : List ℕ :=
  (List.range 8).map (fun i => n / 2 ^ (56 - 8 * i) % 256)

/-- Big-endian bytes of a 32-bit word. -/
def be32 (n : ℕ) : List ℕ :=
  (List.range 4).map (fun i => n / 2 ^ (24 - 8 * i) % 256)

/-- Merkle-Damgard padding shared by SHA-1 and SHA-256: `0x80`, zeros to 56
mod 64, and the bit length as 64-bit big-endian. -/
def shaPad (msg : List ℕ) : List ℕ :=
  msg ++ [0x80] ++ List.replicate ((119 - msg.length % 64) % 64) 0 ++ be64 (msg.length * 8)

/-- Split into 64-byte blocks (fuel bounds the number of blocks). -/
def chunks64 : ℕ → List ℕ → List (List ℕ)
  | 0, _ => []
  | _ + 1, [] => []
  | fuel + 1, l => l.take 64 :: chunks64 fuel (l.drop 64)

/-- The sixteen big-endian message words of one block. -/
def wordsOfBlock (b : List ℕ) : List ℕ :=
  (List.range 16).map (fun i =>
    ((b.get? (4 * i)).getD 0) * 0x1000000 + ((b.get? (4 * i + 1)).getD 0) * 0x10000 +
    ((b.get? (4 * i + 2)).getD 0) * 0x100 + ((b.get? (4 * i + 3)).getD 0))

def sha256K : List ℕ :=
  [1116352408, 1899447441, 3049323471, 3921009573, 961987163,
   1508970993, 2453635748, 2870763221, 3624381080, 310598401,
   607225278, 1426881987, 1925078388, 2162078206, 2614888103,
   3248222580, 3835390401, 4022224774, 264347078, 604807628,
   770255983, 1249150122, 1555081692, 1996064986, 2554220882,
   2821834349, 2952996808, 3210313671, 3336571891, 3584528711,
   113926993, 338241895, 666307205, 773529912, 1294757372,
   1396182291, 1695183700, 1986661051, 2177026350, 2456956037,
   2730485921, 2820302411, 3259730800, 3345764771, 3516065817,
   3600352804, 4094571909, 275423344, 430227734, 506948616,
   659060556, 883997877, 958139571, 1322822218, 1537002063,
   1747873779, 1955562222, 2024104815, 2227730452, 2361852424,
   2428436474, 2756734187, 3204031479, 3329325298]

def sha256H0 : List ℕ :=
  [1779033703, 3144134277, 1013904242, 2773480762,
   1359893119, 2600822924, 528734635, 1541459225]

/-- Message-schedule sigma functions. -/
def sha256sig0 (x : ℕ) : ℕ := rotr32 x 7 ^^^ rotr32 x 18 ^^^ x / 2 ^ 3

def sha256sig1 (x : ℕ) : ℕ := rotr32 x 17 ^^^ rotr32 x 19 ^^^ x / 2 ^ 10

/-- Extend sixteen words to the 64-entry schedule. -/
def sha256Schedule (w16 : List ℕ) : List ℕ :=
  (List.range 48).foldl (fun w _ =>
    let g := fun i : ℕ => (w.get? i).getD 0
    w ++ [w32 (g (w.length - 16) + sha256sig0 (g (w.length - 15)) +
               g (w.length - 7) + sha256sig1 (g (w.length - 2)))]) w16

structure Sha2State where
  a : ℕ
  b : ℕ
  c : ℕ
  d : ℕ
  e : ℕ
  f : ℕ
  g : ℕ
  hh : ℕ

def sha256BigSig0 (x : ℕ) : ℕ := rotr32 x 2 ^^^ rotr32 x 13 ^^^ rotr32 x 22

def sha256BigSig1 (x : ℕ) : ℕ := rotr32 x 6 ^^^ rotr32 x 11 ^^^ rotr32 x 25

def shaCh (x y z : ℕ) : ℕ := x &&& y ^^^ (x ^^^ 4294967295) &&& z

def shaMaj (x y z : ℕ) : ℕ := x &&& y ^^^ x &&& z ^^^ y &&& z

/-- One SHA-256 round. -/
def sha256Round (s : Sha2State) (kw : ℕ × ℕ) : Sha2State :=
  let t1 := w32 (s.hh + sha256BigSig1 s.e + shaCh s.e s.f s.g + kw.1 + kw.2)
  let t2 := w32 (sha256BigSig0 s.a + shaMaj s.a s.b s.c)
  ⟨w32 (t1 + t2), s.a, s.b, s.c, w32 (s.d + t1), s.e, s.f, s.g⟩

/-- Compress one 64-byte block into the running digest. -/
def sha256Compress (h : List ℕ) (block : List ℕ) : List ℕ :=
  let w := sha256Schedule (wordsOfBlock block)
  let g := fun i : ℕ => (h.get? i).getD 0
  let s := (sha256K.zip w).foldl sha256Round
    ⟨g 0, g 1, g 2, g 3, g 4, g 5, g 6, g 7⟩
  [w32 (g 0 + s.a), w32 (g 1 + s.b), w32 (g 2 + s.c), w32 (g 3 + s.d),
   w32 (g 4 + s.e), w32 (g 5 + s.f), w32 (g 6 + s.g), w32 (g 7 + s.hh)]

/-- SHA-256 digest bytes of a byte message. -/
def sha256Bytes (msg : List ℕ) : List ℕ :=
  let padded := shaPad msg
  let hs := (chunks64 (padded.length + 1) padded).foldl sha256Compress sha256H0
  hs.foldr (fun wrd acc => be32 wrd ++ acc) []

/-- Lowercase hex digit. -/
def hexDigitChar (n : ℕ) : Char :=
  if n < 10 then Char.ofNat (48 + n) else Char.ofNat (87 + n)

/-- Lowercase hex encoding (`digest("hex")`). -/
def bytesToHex (l : List ℕ) : String :=
  ⟨l.foldr (fun byte acc => hexDigitChar (byte / 16 % 16) :: hexDigitChar (byte % 16) :: acc) []⟩

/-- `createHash("sha256").update(s).digest("hex")`. -/
def sha256Hex (s : String) : String :=
  bytesToHex (sha256Bytes (utf8Bytes s))

def sha1H0 : List ℕ :=
  [1732584193, 4023233417, 2562383102, 271733878, 3285377520]

/-- Extend sixteen words to the 80-entry SHA-1 schedule. -/
def sha1Schedule (w16 : List ℕ) : List ℕ :=
  (List.range 64).foldl (fun w _ =>
    let g := fun i : ℕ => (w.get? i).getD 0
    w ++ [rotl32 (g (w.length - 3) ^^^ g (w.length - 8) ^^^
                  g (w.length - 14) ^^^ g (w.length - 16)) 1]) w16

def sha1F (i x y z : ℕ) : ℕ :=
  if i < 20 then x &&& y ||| (x ^^^ 4294967295) &&& z
  else if i < 40 then x ^^^ y ^^^ z
  else if i < 60 then x &&& y ||| x &&& z ||| y &&& z
  else x ^^^ y ^^^ z

def sha1K (i : ℕ) : ℕ :=
  if i < 20 then 1518500249
  else if i < 40 then 1859775393
  else if i < 60 then 2400959708
  else 3395469782

structure Sha1State where
  a : ℕ
  b : ℕ
  c : ℕ
  d : ℕ
  e : ℕ

/-- One SHA-1 round, with the round index. -/
def sha1Round (s : Sha1State) (iw : ℕ × ℕ) : Sha1State :=
  let temp := w32 (rotl32 s.a 5 + sha1F iw.1 s.b s.c s.d + s.e + sha1K iw.1 + iw.2)
  ⟨temp, s.a, rotl32 s.b 30, s.c, s.d⟩

/-- Compress one 64-byte block into the running SHA-1 digest. -/
def sha1Compress (h : List ℕ) (block : List ℕ) : List ℕ :=
  let w := sha1Schedule (wordsOfBlock block)
  let g := fun i : ℕ => (h.get? i).getD 0
  let s := w.enum.foldl (fun st p => sha1Round st p) ⟨g 0, g 1, g 2, g 3, g 4⟩
  [w32 (g 0 + s.a), w32 (g 1 + s.b), w32 (g 2 + s.c), w32 (g 3 + s.d), w32 (g 4 + s.e)]

/-- SHA-1 digest bytes of a byte message. -/
def sha1Bytes (msg : List ℕ) : List ℕ :=
  let padded := shaPad msg
  let hs := (chunks64 (padded.length + 1) padded).foldl sha1Compress sha1H0
  hs.foldr (fun wrd acc => be32 wrd ++ acc) []

/-- `createHash("sha1").update(s).digest("hex")`. -/
def sha1Hex (s : String) : String :=
  bytesToHex (sha1Bytes (utf8Bytes s))

/-! ## Offline delegate stand-in (src/server.js lines 667-691) -/

/-- `parseInt(hexChars, 16)` over hex digits. -/
def hexCharsVal (l : List Char) : ℕ :=
  l.foldl (fun a c => a * 16 + (hexVal c).getD 0) 0

/-- The seed-derived 32-bit integer `n` of `mockDelegateDebate`. -/
def mockSeedN (modelId title resolution : String) : ℕ :=
  hexCharsVal ((sha256Hex (modelId ++ "::" ++ title ++ "::" ++ resolution)).data.take 8)

structure MockDelegateResult where
  modelId : String
  vote : String
  confidence : ℕ
  argument : String
  rebuttal : String
  raw : String
  source : String
deriving DecidableEq, Repr

/-- `mockDelegateDebate`: the deterministic offline stand-in. -/
def mockDelegateDebate (modelId title resolution : String) : MockDelegateResult :=
  let n := mockSeedN modelId title resolution
  let vote := if n % 2 = 0 then "Intelligent" else "Idiotic"
  let confidence := 55 + n % 40
  let proArgument :=
    "The resolution is internally coherent, actionable, and likely to increase institutional clarity with measurable outcomes."
  let conArgument :=
    "The resolution introduces governance risk and uneven burden distribution, with unclear enforcement and potential systemic side effects."
  { modelId := modelId
    vote := vote
    confidence := confidence
    argument := if vote == "Intelligent" then proArgument else conArgument
    rebuttal :=
      if vote == "Intelligent" then
        "Opponents may argue adoption cost exceeds benefit in the near term."
      else "Supporters may argue long-term gains justify transitional complexity."
    raw := "\x7b\"vote\":\"" ++ vote ++ "\",\"confidence\":" ++ toString confidence ++ "\x7d"
    source := "mock" }

/-! ## Identity resolution and the submit endpoint
(src/server.js lines 415-479 and 1687-1714)

The store is modelled by its `users` and `resolutions` tables; those are the
only tables the validated-input path of the submit endpoint can touch
before its response. -/

structure UserRow where
  id : String
  handle : String
  displayName : String
  role : String
deriving DecidableEq, Repr

structure ResolutionRow where
  id : String
  authorUserId : String
  title : String
  body : String
  topic : String
  status : String
deriving DecidableEq, Repr

structure Store where
  users : List UserRow
  resolutions : List ResolutionRow
deriving DecidableEq, Repr

def DEFAULT_USER_ID : String := "user-human-8821"

/-- `ensureUser`: upsert by id (`ON CONFLICT(id) DO UPDATE` keeps the
existing role) and read the row back. -/
def ensureUser (s : Store) (id handle displayName : String) : UserRow × Store :=
  let users :=
    if s.users.any (fun u => u.id == id) then
      s.users.map (fun u =>
        if u.id == id then { u with handle := handle, displayName := displayName } else u)
    else s.users ++ [{ id := id, handle := handle, displayName := displayName, role := "citizen" }]
  ((users.find? (fun u => u.id == id)).getD
      { id := id, handle := handle, displayName := displayName, role := "citizen" },
   { s with users := users })

/-- The identity headers of a request (`x-user-id`, `x-user-handle`,
`x-user-name`). -/
structure IdentityHeaders where
  userId : String
  userHandle : String
  userName : String
deriving DecidableEq, Repr

/-- `getCurrentUser` (lines 446-479): resolve the trimmed headers against
the store, creating a user row for an unknown id or handle; with no
identity headers, read the default user. -/
def getCurrentUser (h : IdentityHeaders) (s : Store) : Option UserRow × Store :=
  let userId := jsTrim h.userId
  let userHandle := jsTrim h.userHandle
  let userName := jsTrim h.userName
  if userId ≠ "" then
    match s.users.find? (fun u => u.id == userId) with
    | some existing => (some existing, s)
    | none =>
      let (u, s2) := ensureUser s userId
        (if userHandle ≠ "" then userHandle else "user-" ++ ⟨userId.data.take 8⟩)
        (if userName ≠ "" then userName else "User " ++ ⟨userId.data.take 6⟩)
      (some u, s2)
  else if userHandle ≠ "" then
    match s.users.find? (fun u => u.handle == userHandle) with
    | some existing => (some existing, s)
    | none =>
      let generatedId := "user-" ++ ⟨(sha1Hex userHandle).data.take 16⟩
      let (u, s2) := ensureUser s generatedId userHandle
        (if userName ≠ "" then userName else userHandle)
      (some u, s2)
  else (s.users.find? (fun u => u.id == DEFAULT_USER_ID), s)

/-- The request body fields the submit endpoint reads, each an arbitrary
JSON value or absent. -/
structure SubmitRequest where
  headers : IdentityHeaders
  title : Option JsValue
  body : Option JsValue
  resolution : Option JsValue
deriving Repr

inductive SubmitResult where
  | invalidInput
  | serverError
  | created (resolutionId : String)
deriving DecidableEq, Repr

/-- `String(x || "")` for a possibly-absent request field. -/
def reqFieldString (o : Option JsValue) : String :=
  jsStringOrEmpty o

/-- The submit endpoint (lines 1687-1714) up to and including input
validation, with the persistence of `submitResolutionPayload`
(lines 1645-1652) abstracted to the insert of the resolution row; the
fresh `randomUUID` is an input.  `getCurrentUser` runs before the title and
body are validated. -/
def submitEndpoint (req : SubmitRequest) (newResolutionId : String) (s : Store) :
    SubmitResult × Store :=
  let (user, s1) := getCurrentUser req.headers s
  let title := jsTrim (reqFieldString req.title)
  let body := jsTrim (reqFieldString (jsOr req.body req.resolution))
  if title = "" ∨ body = "" then (.invalidInput, s1)
  else
    match user with
    | none => (.serverError, s1)
    | some u =>
      (.created newResolutionId,
       { s1 with resolutions := s1.resolutions ++
          [{ id := newResolutionId, authorUserId := u.id, title := title, body := body,
             topic := "", status := "submitted" }] })


/-! ## Theorems -/

@[simp] theorem jsToString_jstr (s : String) : jsToString (.jstr s) = s := by
  simp [jsToString]

@[simp] theorem jsToString_jnull : jsToString .jnull = "null" := by
  simp [jsToString]

theorem intelligentCount_cons (r : DelegateRow) (rows : List DelegateRow) :
    intelligentCount (r :: rows) =
      (if rowCounted r && !(rowIsIdiotic r) then 1 else 0) + intelligentCount rows := by
  by_cases h : rowCounted r && !(rowIsIdiotic r) <;>
    simp [intelligentCount, List.filter_cons, h, Nat.add_comm]

theorem idioticCount_cons (r : DelegateRow) (rows : List DelegateRow) :
    idioticCount (r :: rows) =
      (if rowCounted r && rowIsIdiotic r then 1 else 0) + idioticCount rows := by
  by_cases h : rowCounted r && rowIsIdiotic r <;>
    simp [idioticCount, List.filter_cons, h, Nat.add_comm]

theorem intelligentWeight_cons (r : DelegateRow) (rows : List DelegateRow) :
    intelligentWeight (r :: rows) =
      (if rowCounted r && !(rowIsIdiotic r) then rowConf r else 0) + intelligentWeight rows := by
  by_cases h : rowCounted r && !(rowIsIdiotic r) <;>
    simp [intelligentWeight, List.filter_cons, h]

theorem idioticWeight_cons (r : DelegateRow) (rows : List DelegateRow) :
    idioticWeight (r :: rows) =
      (if rowCounted r && rowIsIdiotic r then rowConf r else 0) + idioticWeight rows := by
  by_cases h : rowCounted r && rowIsIdiotic r <;>
    simp [idioticWeight, List.filter_cons, h]

theorem consensusTally_aux (rows : List DelegateRow) :
    ∀ a b c d, rows.foldl tallyStep (a, b, c, d) =
      (a + intelligentCount rows, b + idioticCount rows,
       c + intelligentWeight rows, d + idioticWeight rows) := by
  induction rows with
  | nil =>
    intro a b c d
    simp [intelligentCount, idioticCount, intelligentWeight, idioticWeight]
  | cons r rest ih =>
    intro a b c d
    simp only [List.foldl_cons, tallyStep]
    rw [intelligentCount_cons, idioticCount_cons, intelligentWeight_cons, idioticWeight_cons]
    by_cases he : errTruthy r.error
    · have hc : rowCounted r = false := by simp [rowCounted, he]
      simp only [he, if_true, hc, Bool.false_and, if_false]
      rw [ih]
      simp
    · have hc : rowCounted r = true := by simp [rowCounted, he]
      simp only [he, if_false, hc, Bool.true_and]
      by_cases hv : rowIsIdiotic r
      · simp only [hv, if_true, Bool.not_true, if_false]
        rw [ih]
        refine Prod.ext (by simp) (Prod.ext (by simp; omega) (Prod.ext (by simp) ?_))
        simp
        ring
      · simp only [hv, if_false, Bool.not_false, if_true]
        rw [ih]
        refine Prod.ext (by simp; omega) (Prod.ext (by simp) (Prod.ext ?_ (by simp)))
        simp
        ring

theorem consensusTally_eq (rows : List DelegateRow) :
    consensusTally rows =
      (intelligentCount rows, idioticCount rows,
       intelligentWeight rows, idioticWeight rows) := by
  have h := consensusTally_aux rows 0 0 0 0
  simpa [consensusTally] using h

theorem computeConsensus_votes (rows : List DelegateRow) :
    (computeConsensus rows).intelligentVotes = intelligentCount rows ∧
    (computeConsensus rows).idioticVotes = idioticCount rows ∧
    (computeConsensus rows).totalVotes = intelligentCount rows + idioticCount rows := by
  simp [computeConsensus, consensusTally_eq]

theorem computeConsensus_verdict (rows : List DelegateRow) :
    (computeConsensus rows).verdict =
      (if idioticCount rows > intelligentCount rows then "Idiotic"
       else if idioticCount rows = intelligentCount rows then
         (if idioticWeight rows > intelligentWeight rows then "Idiotic" else "Intelligent")
       else "Intelligent") := by
  simp [computeConsensus, consensusTally_eq]

theorem computeConsensus_pct_def (rows : List DelegateRow) :
    (computeConsensus rows).intelligentPct =
      (if intelligentCount rows + idioticCount rows ≠ 0 then
        jsRound ((intelligentCount rows : ℚ) /
          ((intelligentCount rows + idioticCount rows : ℕ) : ℚ) * 100)
       else 50) ∧
    (computeConsensus rows).idioticPct = 100 - (computeConsensus rows).intelligentPct := by
  simp [computeConsensus, consensusTally_eq]

/-- C1: tie-break rule of the consensus engine.  When the tallied idiotic
count equals the tallied intelligent count, the verdict is `Idiotic`
exactly when the idiotic confidence-weight sum strictly exceeds the
intelligent one, and is `Intelligent` otherwise; a strict idiotic majority
yields `Idiotic`. -/
theorem computeConsensus_tie_break_rule (rows : List DelegateRow) :
    ((computeConsensus rows).intelligentVotes = (computeConsensus rows).idioticVotes →
      (((computeConsensus rows).verdict = "Idiotic" ↔
          idioticWeight rows > intelligentWeight rows) ∧
       (¬ idioticWeight rows > intelligentWeight rows →
          (computeConsensus rows).verdict = "Intelligent"))) ∧
    ((computeConsensus rows).idioticVotes > (computeConsensus rows).intelligentVotes →
      (computeConsensus rows).verdict = "Idiotic") := by
  obtain ⟨hiv, hidv, -⟩ := computeConsensus_votes rows
  have hv := computeConsensus_verdict rows
  constructor
  · intro heq
    rw [hiv, hidv] at heq
    rw [hv, heq]
    simp only [lt_irrefl, if_false, if_pos rfl]
    by_cases hw : idioticWeight rows > intelligentWeight rows
    · simp [hw]
    · simp [hw]
  · intro hgt
    rw [hiv, hidv] at hgt
    rw [hv, if_pos hgt]

/-- Witness for `computeConsensus_tie_break_rule` at the spec's
one-one tie scenario (Intelligent at weight 80 versus Idiotic at
weight 60): the weight tie-break yields `Intelligent`. -/
theorem computeConsensus_tie_break_rule_witness :
    (computeConsensus demoTieRows).verdict = "Intelligent" := by
  have h := computeConsensus_tie_break_rule demoTieRows
  have hw : ¬ idioticWeight demoTieRows > intelligentWeight demoTieRows := by
    simp [idioticWeight, intelligentWeight, demoTieRows, rowCounted, rowIsIdiotic,
      errTruthy, rowConf, List.filter]
    norm_num
  exact (h.1 (by decide)).2 hw

/-- C10: the consensus computation of `src/server.js` and the legacy one of
`src/unnamed/part_000` agree on every list of delegate rows. -/
theorem computeConsensus_eq_legacy (rows : List DelegateRow) :
    computeConsensus rows = computeConsensusLegacy rows := by
  have h : ∀ (l : List DelegateRow) (acc : ℕ × ℕ × ℚ × ℚ),
      l.foldl tallyStep acc =
        (l.filter (fun item => !(errTruthy item.error))).foldl tallyStepLegacy acc := by
    intro l
    induction l with
    | nil => intro acc; rfl
    | cons r rest ih =>
      intro acc
      by_cases he : errTruthy r.error
      · simp [List.foldl_cons, List.filter_cons, he, tallyStep, ih]
      · simp [List.foldl_cons, List.filter_cons, he, tallyStep, tallyStepLegacy, ih]
  simp [computeConsensus, computeConsensusLegacy, consensusTally, h]

/-- C3: the percentage fields of every computed consensus record: the
rounded intelligent share when there are votes, 50 otherwise, the idiotic
percentage as the exact complement, and both within `[0, 100]`. -/
theorem computeConsensus_pct_invariant (rows : List DelegateRow) :
    ((computeConsensus rows).totalVotes > 0 →
      (computeConsensus rows).intelligentPct =
        jsRound (((computeConsensus rows).intelligentVotes : ℚ) /
                 ((computeConsensus rows).totalVotes : ℚ) * 100)) ∧
    ((computeConsensus rows).totalVotes = 0 → (computeConsensus rows).intelligentPct = 50) ∧
    (computeConsensus rows).idioticPct = 100 - (computeConsensus rows).intelligentPct ∧
    (computeConsensus rows).intelligentPct + (computeConsensus rows).idioticPct = 100 ∧
    0 ≤ (computeConsensus rows).intelligentPct ∧
    (computeConsensus rows).intelligentPct ≤ 100 ∧
    0 ≤ (computeConsensus rows).idioticPct ∧
    (computeConsensus rows).idioticPct ≤ 100 := by
  obtain ⟨hiv, hidv, htv⟩ := computeConsensus_votes rows
  obtain ⟨hp, hq⟩ := computeConsensus_pct_def rows
  set iv := intelligentCount rows with hivdef
  set idv := idioticCount rows with hidvdef
  have hbounds : 0 ≤ (computeConsensus rows).intelligentPct ∧
      (computeConsensus rows).intelligentPct ≤ 100 := by
    rw [hp]
    by_cases h0 : iv + idv ≠ 0
    · rw [if_pos h0]
      have htvpos : (0 : ℚ) < ((iv + idv : ℕ) : ℚ) := by
        exact_mod_cast Nat.pos_of_ne_zero h0
      have hfrac0 : (0 : ℚ) ≤ (iv : ℚ) / ((iv + idv : ℕ) : ℚ) :=
        div_nonneg (by positivity) (le_of_lt htvpos)
      have hfrac1 : (iv : ℚ) / ((iv + idv : ℕ) : ℚ) ≤ 1 := by
        rw [div_le_one htvpos]
        exact_mod_cast Nat.le_add_right iv idv
      simp only [jsRound]
      constructor
      · apply Int.floor_nonneg.mpr
        nlinarith
      · have h101 : (iv : ℚ) / ((iv + idv : ℕ) : ℚ) * 100 + 1 / 2 < ((101 : ℤ) : ℚ) := by
          have hc : ((101 : ℤ) : ℚ) = 101 := by norm_num
          rw [hc]
          nlinarith
        have hlt := Int.floor_lt.mpr h101
        omega
    · rw [if_neg h0]
      norm_num
  refine ⟨?_, ?_, hq, by rw [hq]; ring, hbounds.1, hbounds.2, by rw [hq]; omega, by rw [hq]; omega⟩
  · intro hpos
    rw [htv] at hpos
    rw [hp, hiv, htv, if_pos (by omega)]
  · intro hzero
    rw [htv] at hzero
    rw [hp, if_neg (by omega)]

theorem buildDelegateRows_length (ids : List String)
    (settled : List (Except String DelegateSuccess)) (h : settled.length = ids.length) :
    (buildDelegateRows ids settled).length = ids.length := by
  simp [buildDelegateRows, h]

/-- C2: every debate run closes.  Given one settled outcome per dispatched
delegate (failure reasons are the nonempty messages produced by
`runDelegateDebate`), the finalized record is `closed`, holds one delegate
row per call, tallies only non-failed delegates, and in the all-failed case
stores the degenerate `Intelligent` 0-0 consensus with 50/50 percentages. -/
theorem runDebateForResolution_closes (delegateIds : List String)
    (settled : List (Except String DelegateSuccess))
    (hlen : settled.length = delegateIds.length)
    (herr : ∀ e, Except.error e ∈ settled → e ≠ "") :
    (runDebateForResolution delegateIds settled).status = "closed" ∧
    (runDebateForResolution delegateIds settled).rows.length = delegateIds.length ∧
    (runDebateForResolution delegateIds settled).consensus =
      computeConsensus (buildDelegateRows delegateIds settled) ∧
    ((∀ o ∈ settled, ∃ e, o = Except.error e) →
      (runDebateForResolution delegateIds settled).consensus =
        { verdict := "Intelligent", intelligentVotes := 0, idioticVotes := 0,
          totalVotes := 0, intelligentPct := 50, idioticPct := 50 }) := by
  refine ⟨rfl, buildDelegateRows_length _ _ hlen, rfl, ?_⟩
  intro hall
  have hskip : ∀ r ∈ buildDelegateRows delegateIds settled, errTruthy r.error = true := by
    intro r hr
    simp only [buildDelegateRows, List.mem_map] at hr
    obtain ⟨⟨o, mid⟩, hmem, hrow⟩ := hr
    have homem : o ∈ settled := (List.of_mem_zip hmem).1
    obtain ⟨e, he⟩ := hall o homem
    subst he
    have hne := herr e homem
    subst hrow
    simp [buildDelegateRow, errTruthy, hne]
  have htally : consensusTally (buildDelegateRows delegateIds settled) = (0, 0, 0, 0) := by
    rw [consensusTally_eq]
    have hfilter : ∀ p : DelegateRow → Bool,
        (∀ r ∈ buildDelegateRows delegateIds settled, p r = false) →
        (buildDelegateRows delegateIds settled).filter p = [] := by
      intro p hp
      apply List.filter_eq_nil_iff.mpr
      intro r hr
      simp [hp r hr]
    have h1 : (buildDelegateRows delegateIds settled).filter
        (fun r => rowCounted r && !(rowIsIdiotic r)) = [] :=
      hfilter _ (fun r hr => by simp [rowCounted, hskip r hr])
    have h2 : (buildDelegateRows delegateIds settled).filter
        (fun r => rowCounted r && rowIsIdiotic r) = [] :=
      hfilter _ (fun r hr => by simp [rowCounted, hskip r hr])
    simp [intelligentCount, idioticCount, intelligentWeight, idioticWeight, h1, h2]
  simp [runDebateForResolution, computeConsensus, htally, jsRound]

/-- Witness for `runDebateForResolution_closes`: three dispatched delegates
that all fail still close the debate with the degenerate consensus. -/
theorem runDebateForResolution_closes_witness :
    (runDebateForResolution ["m1", "m2", "m3"]
      [Except.error "HTTP 500", Except.error "HTTP 502", Except.error "timeout"]).status
        = "closed" ∧
    (runDebateForResolution ["m1", "m2", "m3"]
      [Except.error "HTTP 500", Except.error "HTTP 502", Except.error "timeout"]).consensus =
      { verdict := "Intelligent", intelligentVotes := 0, idioticVotes := 0,
        totalVotes := 0, intelligentPct := 50, idioticPct := 50 } := by
  have h := runDebateForResolution_closes ["m1", "m2", "m3"]
    [Except.error "HTTP 500", Except.error "HTTP 502", Except.error "timeout"]
    (by decide)
    (by
      intro e he
      simp only [List.mem_cons, List.not_mem_nil, or_false] at he
      rcases he with h1 | h1 | h1 <;> · injection h1 with h2; subst h2; decide)
  refine ⟨h.1, h.2.2.2 ?_⟩
  intro o ho
  simp only [List.mem_cons, List.not_mem_nil, or_false] at ho
  rcases ho with h1 | h1 | h1 <;> exact ⟨_, h1⟩

/-- Witness for `computeConsensus_pct_invariant`: a single intelligent
vote has a positive total, its percentage follows the rounding formula, and
the empty row set defaults to 50. -/
theorem computeConsensus_pct_invariant_witness :
    (computeConsensus demoSingleRow).totalVotes > 0 ∧
    (computeConsensus demoSingleRow).intelligentPct =
      jsRound (((computeConsensus demoSingleRow).intelligentVotes : ℚ) /
               ((computeConsensus demoSingleRow).totalVotes : ℚ) * 100) ∧
    (computeConsensus ([] : List DelegateRow)).intelligentPct = 50 :=
  ⟨by decide,
   (computeConsensus_pct_invariant demoSingleRow).1 (by decide),
   (computeConsensus_pct_invariant ([] : List DelegateRow)).2.1 (by decide)⟩



/-! ## Theorems about `normalizeVote` and the response parser -/

theorem normalizeVote_two_valued (x : String) :
    normalizeVote x = "Intelligent" ∨ normalizeVote x = "Idiotic" := by
  by_cases h : startsWithIdi (jsToLower (jsTrim x)) <;> simp [normalizeVote, h]

theorem clampQ_bounds (v lo hi : ℚ) (h : lo ≤ hi) :
    lo ≤ clampQ v lo hi ∧ clampQ v lo hi ≤ hi :=
  ⟨le_max_left lo _, max_le h (min_le_left hi v)⟩

/-- C7: the vote-normalization rule and its idempotence: any input whose
trimmed, lowercased form starts with `idi` maps to `Idiotic`, anything
else to `Intelligent`, and applying the function twice changes nothing. -/
theorem normalizeVote_rule_and_idempotent (x : String) :
    (startsWithIdi (jsToLower (jsTrim x)) = true → normalizeVote x = "Idiotic") ∧
    (startsWithIdi (jsToLower (jsTrim x)) = false → normalizeVote x = "Intelligent") ∧
    normalizeVote (normalizeVote x) = normalizeVote x := by
  refine ⟨fun h => by simp [normalizeVote, h], fun h => by simp [normalizeVote, h], ?_⟩
  rcases normalizeVote_two_valued x with h | h <;> rw [h] <;> decide

/-- Witness for `normalizeVote_rule_and_idempotent`: a string trimming and
lowercasing to an `idi`-leading form maps to `Idiotic`; an unrecognized
literal maps to `Intelligent`; double application is stable. -/
theorem normalizeVote_rule_and_idempotent_witness :
    normalizeVote " IDIOCY " = "Idiotic" ∧
    normalizeVote "intelligent-ish" = "Intelligent" ∧
    normalizeVote (normalizeVote "whatever") = normalizeVote "whatever" :=
  ⟨(normalizeVote_rule_and_idempotent " IDIOCY ").1 (by decide),
   (normalizeVote_rule_and_idempotent "intelligent-ish").2.1 (by decide),
   (normalizeVote_rule_and_idempotent "whatever").2.2⟩

/-- C4 (amended): on every input the parser produces a record with a
two-valued vote and a confidence clamped into `[1, 100]`; the argument is
non-empty whenever no JSON object was obtained from the text. -/
theorem parseDelegateOutput_total (s : String) :
    ((parseDelegateOutput s).vote = "Intelligent" ∨ (parseDelegateOutput s).vote = "Idiotic") ∧
    1 ≤ (parseDelegateOutput s).confidence ∧
    (parseDelegateOutput s).confidence ≤ 100 ∧
    ((∀ v, maybeParseJsonObject s = some v → jsIsObjectLike v = false) →
      (parseDelegateOutput s).argument ≠ "") := by
  have hreg : ∀ fb : String,
      (regexFallbackRecord fb).vote = "Intelligent" ∨ (regexFallbackRecord fb).vote = "Idiotic" :=
    fun fb => normalizeVote_two_valued _
  have hregArg : ∀ fb : String, (regexFallbackRecord fb).argument ≠ "" := by
    intro fb
    rcases eq_or_ne fb "" with rfl | h
    · decide
    · have hb : (fb == "") = false := by
        simpa using h
      simp [regexFallbackRecord, hb, h]
  have hclamp : ∀ q : ℚ, 1 ≤ clampQ q 1 100 ∧ clampQ q 1 100 ≤ 100 :=
    fun q => clampQ_bounds q 1 100 (by norm_num)
  cases heq : maybeParseJsonObject s with
  | none =>
    simp only [parseDelegateOutput, heq]
    exact ⟨hreg _, (hclamp _).1, (hclamp _).2, fun _ => hregArg _⟩
  | some v =>
    by_cases hobj : jsIsObjectLike v
    · simp only [parseDelegateOutput, heq, hobj, if_true]
      refine ⟨normalizeVote_two_valued _, (hclamp _).1, (hclamp _).2, ?_⟩
      intro hno
      exact absurd hobj (by simp [hno v rfl])
    · simp only [parseDelegateOutput, heq, hobj, if_false]
      exact ⟨hreg _, (hclamp _).1, (hclamp _).2, fun _ => hregArg _⟩

/-- Witness for `parseDelegateOutput_total` at a plain-prose input, where
no JSON object is obtained. -/
theorem parseDelegateOutput_total_witness :
    ((parseDelegateOutput "Definitely Idiotic.").vote = "Intelligent" ∨
      (parseDelegateOutput "Definitely Idiotic.").vote = "Idiotic") ∧
    (parseDelegateOutput "Definitely Idiotic.").argument ≠ "" := by
  have h := parseDelegateOutput_total "Definitely Idiotic."
  have hnone : maybeParseJsonObject "Definitely Idiotic." = none := rfl
  exact ⟨h.1, h.2.2.2 (fun v hv => by rw [hnone] at hv; exact Option.noConfusion hv)⟩

/-- C4 counterexample: a JSON object with a truthy whitespace-only
`argument` field and a fractional `confidence` field.  The argument trims
to the empty string, against the claim that the argument is always
non-empty, and the confidence stays the non-integral 72.5 = 145/2, against
the claim that the confidence lies in the integer range `[1, 100]`. -/
theorem parseDelegateOutput_empty_argument_counterexample :
    (parseDelegateOutput "\x7b\"vote\":\"ok\",\"confidence\":72.5,\"argument\":\" \"\x7d").argument
      = "" ∧
    (parseDelegateOutput "\x7b\"vote\":\"ok\",\"confidence\":72.5,\"argument\":\" \"\x7d").confidence
      = 145 / 2 ∧
    ¬ ∃ n : ℤ,
      (parseDelegateOutput
        "\x7b\"vote\":\"ok\",\"confidence\":72.5,\"argument\":\" \"\x7d").confidence = (n : ℚ) := by
  have harg : (parseDelegateOutput
      "\x7b\"vote\":\"ok\",\"confidence\":72.5,\"argument\":\" \"\x7d").argument
      = jsTrim (jsToString (.jstr " ")) := rfl
  have hconf : (parseDelegateOutput
      "\x7b\"vote\":\"ok\",\"confidence\":72.5,\"argument\":\" \"\x7d").confidence
      = clampQ (jsConfidenceNumber
          (some (.jnum (((72 : ℕ) : ℚ) + ((5 : ℕ) : ℚ) / 10 ^ 1)))) 1 100 := rfl
  have he : ((72 : ℕ) : ℚ) + ((5 : ℕ) : ℚ) / 10 ^ 1 = 145 / 2 := by norm_num
  have hcv : jsConfidenceNumber
      (some (.jnum (((72 : ℕ) : ℚ) + ((5 : ℕ) : ℚ) / 10 ^ 1))) = 145 / 2 := by
    simp only [jsConfidenceNumber, jsToNumber, he]
    rw [if_neg (by norm_num)]
  have hclamp : clampQ (145 / 2) 1 100 = 145 / 2 := by
    simp only [clampQ]
    rw [min_eq_right (by norm_num), max_eq_right (by norm_num)]
  refine ⟨by rw [harg, jsToString_jstr]; decide, by rw [hconf, hcv, hclamp], ?_⟩
  rintro ⟨n, hn⟩
  rw [hconf, hcv, hclamp] at hn
  have h2 : (145 : ℚ) = 2 * (n : ℚ) := by
    have hmul := congrArg (fun x : ℚ => 2 * x) hn
    norm_num at hmul
    exact_mod_cast hmul
  have h3 : (145 : ℤ) = 2 * n := by exact_mod_cast h2
  omega

/-- C5 (amended): for prose from which no JSON object can be extracted,
the verdict token and the percentage are taken from the first regex match:
if the first word-bounded vote token normalizes to `Idiotic` and the first
`NN%` match captures 72, the parse is `Idiotic` at confidence 72; the empty
string parses to the spec's default record. -/
theorem parseDelegateOutput_prose (s : String) (t : String)
    (hjson : maybeParseJsonObject s = none)
    (hvote : firstVoteMatch (flattenText s) = some t)
    (ht : normalizeVote t = "Idiotic")
    (hpct : firstPct (flattenText s) = some 72) :
    ((parseDelegateOutput s).vote = "Idiotic" ∧ (parseDelegateOutput s).confidence = 72) ∧
    parseDelegateOutput "" =
      { vote := "Intelligent", confidence := 55,
        argument := "No argument returned.", rebuttal := "" } := by
  refine ⟨?_, by decide⟩
  simp only [parseDelegateOutput, hjson, regexFallbackRecord, hvote, hpct]
  refine ⟨ht, ?_⟩
  simp only [clampQ]
  norm_num

/-- Witness for `parseDelegateOutput_prose` at a prose string whose first
vote token is `Idiotic` and whose first percentage is `72%`. -/
theorem parseDelegateOutput_prose_witness :
    (parseDelegateOutput "This is Idiotic, 72% sure.").vote = "Idiotic" ∧
    (parseDelegateOutput "This is Idiotic, 72% sure.").confidence = 72 :=
  (parseDelegateOutput_prose "This is Idiotic, 72% sure." "Idiotic"
    rfl (by decide) (by decide) (by decide)).1

/-- C5 counterexample: a plain-prose string containing the substrings
`Idiotic` and `72%`, with no extractable JSON, that nevertheless parses to
vote `Intelligent` (the earlier `Intelligent` token wins) at confidence 100
(the first percentage match captures `172`, clamped). -/
theorem parseDelegateOutput_prose_counterexample :
    (∃ pre post : String, "Intelligent Idiotic 172%" = pre ++ "Idiotic" ++ post) ∧
    (∃ pre post : String, "Intelligent Idiotic 172%" = pre ++ "72%" ++ post) ∧
    maybeParseJsonObject "Intelligent Idiotic 172%" = none ∧
    (parseDelegateOutput "Intelligent Idiotic 172%").vote = "Intelligent" ∧
    (parseDelegateOutput "Intelligent Idiotic 172%").confidence = 100 :=
  ⟨⟨"Intelligent ", " 172%", by decide⟩, ⟨"Intelligent Idiotic 1", "", by decide⟩,
   rfl, by decide, by decide⟩

/-- C6 (amended): in the JSON branch the confidence is the clamp to
`[1, 100]` of the numeric value of the `confidence` field whenever that
value is nonzero, and defaults to 55 when the field is absent, non-numeric,
or zero (`Number(x) || 55` treats 0 as falsy). -/
theorem parseDelegateOutput_confidence (s : String) (v : JsValue)
    (hp : maybeParseJsonObject s = some v) (ho : jsIsObjectLike v = true) :
    (jsGet v "confidence" = none → (parseDelegateOutput s).confidence = 55) ∧
    (∀ cv, jsGet v "confidence" = some cv → jsToNumber cv = none →
      (parseDelegateOutput s).confidence = 55) ∧
    (∀ cv, jsGet v "confidence" = some cv → jsToNumber cv = some 0 →
      (parseDelegateOutput s).confidence = 55) ∧
    (∀ cv q, jsGet v "confidence" = some cv → jsToNumber cv = some q → q ≠ 0 →
      (parseDelegateOutput s).confidence = clampQ q 1 100) := by
  have hbase : (parseDelegateOutput s).confidence
      = clampQ (jsConfidenceNumber (jsGet v "confidence")) 1 100 := by
    simp [parseDelegateOutput, hp, ho, jsonBranchRecord]
  have h55 : clampQ (55 : ℚ) 1 100 = 55 := by
    simp only [clampQ]
    norm_num
  refine ⟨?_, ?_, ?_, ?_⟩
  · intro habs
    rw [hbase, habs]
    simpa [jsConfidenceNumber] using h55
  · intro cv hcv hnan
    rw [hbase, hcv]
    simp only [jsConfidenceNumber, hnan]
    exact h55
  · intro cv hcv hzero
    rw [hbase, hcv]
    simp only [jsConfidenceNumber, hzero, if_pos rfl]
    exact h55
  · intro cv q hcv hq hne
    rw [hbase, hcv]
    simp [jsConfidenceNumber, hq, hne]

/-- Witness for `parseDelegateOutput_confidence`: an integer confidence 70
is clamped (to itself) and an absent field defaults to 55. -/
theorem parseDelegateOutput_confidence_witness :
    (parseDelegateOutput "\x7b\"vote\":\"ok\",\"confidence\":70\x7d").confidence
      = clampQ 70 1 100 ∧
    (parseDelegateOutput "\x7b\"vote\":\"ok\"\x7d").confidence = 55 := by
  constructor
  · exact (parseDelegateOutput_confidence "\x7b\"vote\":\"ok\",\"confidence\":70\x7d"
      (.jobj [("vote", .jstr "ok"), ("confidence", .jnum 70)]) rfl rfl).2.2.2
      (.jnum 70) 70 rfl rfl (by norm_num)
  · exact (parseDelegateOutput_confidence "\x7b\"vote\":\"ok\"\x7d"
      (.jobj [("vote", .jstr "ok")]) rfl rfl).1 rfl

/-- C6 counterexample: the field `confidence: 0` is present and numeric,
yet the parse yields 55 rather than `clamp(0, 1, 100) = 1`, because
`Number(parsed.confidence) || 55` treats 0 as falsy. -/
theorem parseDelegateOutput_confidence_zero_counterexample :
    jsGet (.jobj [("vote", .jstr "ok"), ("confidence", .jnum 0)]) "confidence"
      = some (.jnum 0) ∧
    maybeParseJsonObject "\x7b\"vote\":\"ok\",\"confidence\":0\x7d"
      = some (.jobj [("vote", .jstr "ok"), ("confidence", .jnum 0)]) ∧
    (parseDelegateOutput "\x7b\"vote\":\"ok\",\"confidence\":0\x7d").confidence = 55 ∧
    clampQ 0 1 100 = 1 := by
  refine ⟨rfl, rfl, by decide, ?_⟩
  simp only [clampQ]
  norm_num

/-! ## Theorems about the offline stand-in and the submit endpoint -/

/-- C8: the offline stand-in is a pure function of
`(modelId, title, resolution)` — two calls with the same inputs give the
same record — its confidence lies in `[55, 95)`, and the vote is chosen by
the parity of the 32-bit seed taken from the SHA-256 hash of the
inputs. -/
theorem mockDelegateDebate_deterministic (m t r : String) :
    mockDelegateDebate m t r = mockDelegateDebate m t r ∧
    55 ≤ (mockDelegateDebate m t r).confidence ∧
    (mockDelegateDebate m t r).confidence < 95 ∧
    (mockDelegateDebate m t r).vote =
      (if mockSeedN m t r % 2 = 0 then "Intelligent" else "Idiotic") := by
  refine ⟨rfl, ?_, ?_, ?_⟩
  · simp only [mockDelegateDebate]
    omega
  · simp only [mockDelegateDebate]
    omega
  · simp only [mockDelegateDebate]

theorem getCurrentUser_resolutions (h : IdentityHeaders) (s : Store) :
    ((getCurrentUser h s).2).resolutions = s.resolutions := by
  simp only [getCurrentUser]
  split
  · split
    · rfl
    · simp [ensureUser]
  · split
    · split
      · rfl
      · simp [ensureUser]
    · rfl

theorem getCurrentUser_known_id (h : IdentityHeaders) (s : Store)
    (hid : jsTrim h.userId ≠ "")
    (hknown : ∃ u ∈ s.users, u.id = jsTrim h.userId) :
    ((getCurrentUser h s).2) = s := by
  have hfind : (s.users.find? (fun u => u.id == jsTrim h.userId)).isSome := by
    rw [List.find?_isSome]
    obtain ⟨u, hu, hid2⟩ := hknown
    exact ⟨u, hu, by simp [hid2]⟩
  obtain ⟨u, hm⟩ := Option.isSome_iff_exists.mp hfind
  simp [getCurrentUser, hid, hm]

theorem getCurrentUser_known_handle (h : IdentityHeaders) (s : Store)
    (hid : jsTrim h.userId = "") (hh : jsTrim h.userHandle ≠ "")
    (hknown : ∃ u ∈ s.users, u.handle = jsTrim h.userHandle) :
    ((getCurrentUser h s).2) = s := by
  have hfind : (s.users.find? (fun u => u.handle == jsTrim h.userHandle)).isSome := by
    rw [List.find?_isSome]
    obtain ⟨u, hu, hh2⟩ := hknown
    exact ⟨u, hu, by simp [hh2]⟩
  obtain ⟨u, hm⟩ := Option.isSome_iff_exists.mp hfind
  simp [getCurrentUser, hid, hh, hm]

theorem getCurrentUser_no_headers (h : IdentityHeaders) (s : Store)
    (hid : jsTrim h.userId = "") (hh : jsTrim h.userHandle = "") :
    ((getCurrentUser h s).2) = s := by
  simp [getCurrentUser, hid, hh]

/-- C9 (amended): a submission whose title or body is empty after trimming
fails with the invalid-input error and persists no resolution; the stored
state as a whole is unchanged whenever the request's identity headers
resolve to an existing user (by `x-user-id` or by `x-user-handle`) or are
absent — but identity resolution runs before validation, so an unknown
`x-user-id` or `x-user-handle` upserts a user row even though the
submission is rejected. -/
theorem submitEndpoint_invalid_input (req : SubmitRequest) (rid : String) (s : Store)
    (hbad : jsTrim (reqFieldString req.title) = "" ∨
            jsTrim (reqFieldString (jsOr req.body req.resolution)) = "") :
    (submitEndpoint req rid s).1 = .invalidInput ∧
    (submitEndpoint req rid s).2.resolutions = s.resolutions ∧
    (jsTrim req.headers.userId ≠ "" →
      (∃ u ∈ s.users, u.id = jsTrim req.headers.userId) →
      (submitEndpoint req rid s).2 = s) ∧
    (jsTrim req.headers.userId = "" → jsTrim req.headers.userHandle ≠ "" →
      (∃ u ∈ s.users, u.handle = jsTrim req.headers.userHandle) →
      (submitEndpoint req rid s).2 = s) ∧
    (jsTrim req.headers.userId = "" → jsTrim req.headers.userHandle = "" →
      (submitEndpoint req rid s).2 = s) := by
  have hres : (submitEndpoint req rid s) = (.invalidInput, (getCurrentUser req.headers s).2) := by
    simp only [submitEndpoint]
    rcases hbad with hb | hb <;> simp [hb]
  refine ⟨by rw [hres], by rw [hres]; exact getCurrentUser_resolutions _ _, ?_, ?_, ?_⟩
  · intro hid hknown
    rw [hres]
    exact getCurrentUser_known_id _ _ hid hknown
  · intro hid hh hknown
    rw [hres]
    exact getCurrentUser_known_handle _ _ hid hh hknown
  · intro hid hh
    rw [hres]
    exact getCurrentUser_no_headers _ _ hid hh

/-- Witness for `submitEndpoint_invalid_input`: an empty title is rejected
with no change to the store when the request carries the stored user's id,
when it carries the stored user's handle, and when it carries no identity
headers at all. -/
theorem submitEndpoint_invalid_input_witness :
    (submitEndpoint
      { headers := { userId := "user-human-8821", userHandle := "", userName := "" },
        title := some (.jstr "  "), body := some (.jstr "a body"), resolution := none }
      "r1"
      { users := [{ id := "user-human-8821", handle := "human-8821",
                    displayName := "Human Delegate", role := "citizen" }],
        resolutions := [] }).1 = .invalidInput ∧
    (submitEndpoint
      { headers := { userId := "user-human-8821", userHandle := "", userName := "" },
        title := some (.jstr "  "), body := some (.jstr "a body"), resolution := none }
      "r1"
      { users := [{ id := "user-human-8821", handle := "human-8821",
                    displayName := "Human Delegate", role := "citizen" }],
        resolutions := [] }).2 =
      { users := [{ id := "user-human-8821", handle := "human-8821",
                    displayName := "Human Delegate", role := "citizen" }],
        resolutions := [] } ∧
    (submitEndpoint
      { headers := { userId := "", userHandle := "human-8821", userName := "" },
        title := some (.jstr "  "), body := some (.jstr "a body"), resolution := none }
      "r1"
      { users := [{ id := "user-human-8821", handle := "human-8821",
                    displayName := "Human Delegate", role := "citizen" }],
        resolutions := [] }).2 =
      { users := [{ id := "user-human-8821", handle := "human-8821",
                    displayName := "Human Delegate", role := "citizen" }],
        resolutions := [] } ∧
    (submitEndpoint
      { headers := { userId := "", userHandle := "", userName := "" },
        title := some (.jstr "  "), body := some (.jstr "a body"), resolution := none }
      "r1"
      { users := [{ id := "user-human-8821", handle := "human-8821",
                    displayName := "Human Delegate", role := "citizen" }],
        resolutions := [] }).2 =
      { users := [{ id := "user-human-8821", handle := "human-8821",
                    displayName := "Human Delegate", role := "citizen" }],
        resolutions := [] } := by
  have hbad : jsTrim (reqFieldString (some (JsValue.jstr "  "))) = "" ∨
      jsTrim (reqFieldString (jsOr (some (JsValue.jstr "a body")) none)) = "" := by
    refine Or.inl ?_
    have hb : reqFieldString (some (JsValue.jstr "  ")) = "  " := by
      simp [reqFieldString, jsStringOrEmpty, jsTruthy]
    rw [hb]
    decide
  have h1 := submitEndpoint_invalid_input
    { headers := { userId := "user-human-8821", userHandle := "", userName := "" },
      title := some (.jstr "  "), body := some (.jstr "a body"), resolution := none }
    "r1"
    { users := [{ id := "user-human-8821", handle := "human-8821",
                  displayName := "Human Delegate", role := "citizen" }],
      resolutions := [] } hbad
  have h2 := submitEndpoint_invalid_input
    { headers := { userId := "", userHandle := "human-8821", userName := "" },
      title := some (.jstr "  "), body := some (.jstr "a body"), resolution := none }
    "r1"
    { users := [{ id := "user-human-8821", handle := "human-8821",
                  displayName := "Human Delegate", role := "citizen" }],
      resolutions := [] } hbad
  have h3 := submitEndpoint_invalid_input
    { headers := { userId := "", userHandle := "", userName := "" },
      title := some (.jstr "  "), body := some (.jstr "a body"), resolution := none }
    "r1"
    { users := [{ id := "user-human-8821", handle := "human-8821",
                  displayName := "Human Delegate", role := "citizen" }],
      resolutions := [] } hbad
  refine ⟨h1.1, ?_, ?_, ?_⟩
  · exact h1.2.2.1 (by decide)
      ⟨{ id := "user-human-8821", handle := "human-8821",
         displayName := "Human Delegate", role := "citizen" }, by decide, rfl⟩
  · exact h2.2.2.2.1 (by decide) (by decide)
      ⟨{ id := "user-human-8821", handle := "human-8821",
         displayName := "Human Delegate", role := "citizen" }, by decide, rfl⟩
  · exact h3.2.2.2.2 (by decide) (by decide)

set_option maxRecDepth 8192 in
/-- C9 counterexample: with an empty title the submit endpoint answers
with the invalid-input error, yet the store is no longer unchanged: an
unknown `x-user-id` header — and likewise an unknown `x-user-handle`
header — makes identity resolution insert a user row before validation
ran. -/
theorem submitEndpoint_side_effect_counterexample :
    (submitEndpoint
      { headers := { userId := "user-new-123", userHandle := "", userName := "" },
        title := some (.jstr ""), body := some (.jstr "a body"), resolution := none }
      "r1"
      { users := [{ id := "user-human-8821", handle := "human-8821",
                    displayName := "Human Delegate", role := "citizen" }],
        resolutions := [] }).1 = .invalidInput ∧
    (submitEndpoint
      { headers := { userId := "user-new-123", userHandle := "", userName := "" },
        title := some (.jstr ""), body := some (.jstr "a body"), resolution := none }
      "r1"
      { users := [{ id := "user-human-8821", handle := "human-8821",
                    displayName := "Human Delegate", role := "citizen" }],
        resolutions := [] }).2 ≠
      { users := [{ id := "user-human-8821", handle := "human-8821",
                    displayName := "Human Delegate", role := "citizen" }],
        resolutions := [] } ∧
    (submitEndpoint
      { headers := { userId := "", userHandle := "brand-new-handle", userName := "" },
        title := some (.jstr ""), body := some (.jstr "a body"), resolution := none }
      "r1"
      { users := [{ id := "user-human-8821", handle := "human-8821",
                    displayName := "Human Delegate", role := "citizen" }],
        resolutions := [] }).1 = .invalidInput ∧
    (submitEndpoint
      { headers := { userId := "", userHandle := "brand-new-handle", userName := "" },
        title := some (.jstr ""), body := some (.jstr "a body"), resolution := none }
      "r1"
      { users := [{ id := "user-human-8821", handle := "human-8821",
                    displayName := "Human Delegate", role := "citizen" }],
        resolutions := [] }).2 ≠
      { users := [{ id := "user-human-8821", handle := "human-8821",
                    displayName := "Human Delegate", role := "citizen" }],
        resolutions := [] } := by
  refine ⟨by decide, by decide, by decide, by decide⟩

end Icracy
